import Mathlib

/-!
Verification of the MD_VIEWER repository (src/main.py), a PyQt6 Markdown
editor with live preview, theming, file operations, export, and an AI
assistant.  The single class `MarkdownViewer` is shallowly embedded as a
state record `ViewerState` plus one Lean function per Python method.
External libraries (markdown2, Pygments, Qt dialogs and the Qt web view)
are modelled as parameters: the Markdown converter is an arbitrary
function of the input text and the extras list passed to it, the Pygments
style sheets are arbitrary strings handed to `load_styles`, and dialog
results or I/O outcomes are explicit arguments of the operations.
-/

namespace MDViewer

/-- The `base_css` string literal assigned in `MarkdownViewer.load_styles`
(src/main.py lines 195-205), transcribed byte for byte. -/
def baseCssSrc : String :=
  "\n            body \x7b font-family: sans-serif; line-height: 1.6; padding: 20px; \x7d\n            h1, h2, h3, h4, h5, h6 \x7b line-height: 1.2; \x7d\n            table \x7b border-collapse: collapse; width: 100%; \x7d\n            th, td \x7b border: 1px solid #ddd; padding: 8px; \x7d\n            th \x7b background-color: #f2f2f2; \x7d\n            blockquote \x7b border-left: 4px solid #ccc; padding-left: 10px; color: #666; \x7d\n            code \x7b background-color: #f9f9f9; padding: 2px 4px; border-radius: 4px; \x7d\n            .codehilite \x7b background: #f8f8f8; border: 1px solid #ccc; padding: 10px; border-radius: 4px; overflow-x: auto;\x7d\n            img \x7b max-width: 100%; height: auto; \x7d\n        "

/-- The `dark_mode_css` string literal assigned in `load_styles`
(src/main.py lines 207-216). -/
def darkModeCssSrc : String :=
  "\n            body \x7b background-color: #2b2b2b; color: #dcdcdc; \x7d\n            h1, h2, h3, h4, h5, h6 \x7b color: #ffffff; \x7d\n            table \x7b border-color: #555; \x7d\n            th, td \x7b border-color: #555; \x7d\n            th \x7b background-color: #3a3a3a; \x7d\n            blockquote \x7b border-left-color: #555; color: #aaa; \x7d\n            code \x7b background-color: #3c3c3c; color: #dcdcdc; \x7d\n            a \x7b color: #87ceeb; \x7d\n        "

/-- The part of `html_template` (src/main.py lines 221-234) before the
`css` placeholder. -/
def htmlTemplatePre : String :=
  "\n        <!DOCTYPE html>\n        <html>\n        <head>\n            <meta charset=\"utf-g\">\n            <style>\n                "

/-- The part of `html_template` between the `css` and `content`
placeholders. -/
def htmlTemplateMid : String :=
  "\n            </style>\n        </head>\n        <body>\n            "

/-- The part of `html_template` after the `content` placeholder. -/
def htmlTemplatePost : String :=
  "\n        </body>\n        </html>\n        "

/-- Python formatting `self.html_template.format(css=..., content=...)`: Python string
formatting substitutes the two placeholders of the fixed template. -/
def htmlTemplateFormat (css content : String) : String :=
  htmlTemplatePre ++ css ++ htmlTemplateMid ++ content ++ htmlTemplatePost

/-- The extras list passed to `markdown2.markdown` in `update_preview`
(src/main.py line 247). -/
def previewExtras : List String :=
  ["fenced-code-blocks", "tables", "highlightjs-classes", "code-friendly"]

/-- The extras list passed to `markdown2.markdown` in `export_to_html`
(src/main.py line 296). -/
def exportExtras : List String :=
  ["fenced-code-blocks", "tables"]

/-- The mutable fields of the `MarkdownViewer` instance, plus the widget
state the methods read and write: the editor document text, the preview
document, the checked state of the dark-mode menu action, the editor font
point size, the window title, and the single-shot debounce timer
(`update_timer`), modelled as an optional absolute deadline. -/
structure ViewerState where
  editorText : String
  previewHtml : String
  currentFilePath : Option String
  apiKeySet : Bool
  geminiApiKey : Option String
  darkChecked : Bool
  pygmentsCss : String
  baseCss : String
  darkModeCss : String
  pygmentsDarkCss : String
  currentCss : String
  editorFontPointSize : Int
  windowTitle : String
  timerDeadline : Option Nat
  deriving Repr, DecidableEq

/-- Method `MarkdownViewer.load_styles` (src/main.py lines 190-234): stores the
two Pygments style sheets (`HtmlFormatter(style=...).get_style_defs`,
an external library call whose results are the two string parameters),
the two hand-written CSS blocks, and initialises `current_css` to
`base_css + pygments_css`. -/
def loadStyles (pygLight pygDark : String) (s : ViewerState) : ViewerState :=
  { s with
    pygmentsCss := pygLight
    baseCss := baseCssSrc
    darkModeCss := darkModeCssSrc
    pygmentsDarkCss := pygDark
    currentCss := baseCssSrc ++ pygLight }

/-- The HTML content fragment computed in `update_preview` (src/main.py
lines 243-248): `markdown2.markdown(markdown_text, extras=[...])`, where
`md` stands for the external `markdown2.markdown` routine. -/
def previewContent (md : String → List String → String) (s : ViewerState) : String :=
  md s.editorText previewExtras

/-- The full HTML string built in `update_preview` (src/main.py line 250):
`self.html_template.format(css=self.current_css, content=html_content)`. -/
def updatePreviewHtml (md : String → List String → String) (s : ViewerState) : String :=
  htmlTemplateFormat s.currentCss (previewContent md s)

/-- Method `MarkdownViewer.update_preview` called with `html_content=None`
(src/main.py lines 241-257) as a state transition: the computed full HTML
is loaded into the preview web view.  The base URL passed to `setHtml`
affects only how the view resolves relative links, not the HTML string. -/
def updatePreview (md : String → List String → String) (s : ViewerState) : ViewerState :=
  { s with previewHtml := updatePreviewHtml md s }

/-- Method `MarkdownViewer.on_text_changed` (src/main.py lines 236-239): stop the
single-shot debounce timer and restart it with a 300 ms interval.  `now`
is the instant of the edit event; the pending deadline (if any) is
discarded and replaced by `now + 300`. -/
def onTextChanged (now : Nat) (s : ViewerState) : ViewerState :=
  { s with timerDeadline := some (now + 300) }

/-- Method `MarkdownViewer.toggle_dark_mode` (src/main.py lines 333-346).  The
checkable menu action has already been toggled by the toolkit when the
handler runs, so the handler observes the new checked state: checked
selects `base_css + dark_mode_css + pygments_dark_css`, unchecked selects
`base_css + pygments_css`, then the preview is re-rendered.  The editor
and AI pane style-sheet strings touch no field modelled here. -/
def toggleDarkMode (md : String → List String → String) (s : ViewerState) : ViewerState :=
  let s1 := { s with darkChecked := !s.darkChecked }
  let s2 :=
    if s1.darkChecked then
      { s1 with currentCss := s1.baseCss ++ s1.darkModeCss ++ s1.pygmentsDarkCss }
    else
      { s1 with currentCss := s1.baseCss ++ s1.pygmentsCss }
  updatePreview md s2

/-- Python `os.path.basename` on POSIX: the part of the path after the
last slash. -/
def osPathBasename (p : String) : String :=
  (p.splitOn ("/")).getLastD ("")

/-- The window title set by `open_file` and `save_file_as`:
`f"Python Markdown Viewer - \x7bos.path.basename(file_path)\x7d"`. -/
def titleFor (p : String) : String :=
  "Python Markdown Viewer - " ++ osPathBasename p

/-- The file system, modelled as a partial map from path to text
content. -/
def Fs : Type := String → Option String

/-- A successful text-mode write of `content` to the file at `p`. -/
def writeTo (fs : Fs) (p content : String) : Fs :=
  fun q => if q = p then some content else fs q

/-- The body of `MarkdownViewer.save_file` when `current_file_path` is set
(src/main.py lines 273-279): write the editor text to that path.
`writeOk` tells whether the write raises; on failure a message box is
shown and the state is left unchanged. -/
def saveFileWithPath (p : String) (writeOk : Bool) (s : ViewerState) (fs : Fs) :
    ViewerState × Fs :=
  if writeOk then (s, writeTo fs p s.editorText) else (s, fs)

/-- Method `MarkdownViewer.save_file_as` (src/main.py lines 283-289):
`dialogPath` is the result of the save dialog (`None` when cancelled).
When a path is chosen, `current_file_path` and the window title are
updated first, and only then `save_file` runs, which now sees the new
path and performs the write. -/
def saveFileAs (dialogPath : Option String) (writeOk : Bool) (s : ViewerState) (fs : Fs) :
    ViewerState × Fs :=
  match dialogPath with
  | none => (s, fs)
  | some p =>
    let s1 := { s with currentFilePath := some p, windowTitle := titleFor p }
    saveFileWithPath p writeOk s1 fs

/-- Method `MarkdownViewer.save_file` (src/main.py lines 272-281): write to
`current_file_path` if one is set, otherwise fall through to
`save_file_as` (whose dialog result is `dialogPath`). -/
def saveFile (dialogPath : Option String) (writeOk : Bool) (s : ViewerState) (fs : Fs) :
    ViewerState × Fs :=
  match s.currentFilePath with
  | some p => saveFileWithPath p writeOk s fs
  | none => saveFileAs dialogPath writeOk s fs

/-- Method `MarkdownViewer.open_file` (src/main.py lines 259-270): `dialogPath`
is the result of the open dialog.  The file content is read and placed in
the editor; `current_file_path` and the window title are updated only
after the read succeeded.  A failed read (`fs p = none`, the `except`
branch) shows a message box and changes nothing. -/
def openFile (dialogPath : Option String) (s : ViewerState) (fs : Fs) : ViewerState :=
  match dialogPath with
  | none => s
  | some p =>
    match fs p with
    | some content =>
      { s with editorText := content, currentFilePath := some p, windowTitle := titleFor p }
    | none => s

/-- The full HTML string written by `MarkdownViewer.export_to_html`
(src/main.py lines 295-297): same template and `current_css` as the
preview, but the converter is invoked with extras
`["fenced-code-blocks", "tables"]`. -/
def exportHtmlString (md : String → List String → String) (s : ViewerState) : String :=
  htmlTemplateFormat s.currentCss (md s.editorText exportExtras)

/-- Method `MarkdownViewer.export_to_html` (src/main.py lines 291-302): when a
path is chosen and the write succeeds, the wrapped HTML is written to the
file. -/
def exportToHtml (md : String → List String → String) (dialogPath : Option String)
    (writeOk : Bool) (s : ViewerState) (fs : Fs) : ViewerState × Fs :=
  match dialogPath with
  | none => (s, fs)
  | some p => if writeOk then (s, writeTo fs p (exportHtmlString md s)) else (s, fs)

/-- Method `MarkdownViewer.adjust_font_size` (src/main.py lines 348-360): the
editor font point size is changed to `pointSize + delta // 2` (Python
floor division) only when the new size exceeds 4; the JavaScript nudging
of the preview body font touches no modelled field. -/
def adjustFontSize (delta : Int) (s : ViewerState) : ViewerState :=
  let newSize := s.editorFontPointSize + Int.fdiv delta 2
  if newSize > 4 then { s with editorFontPointSize := newSize } else s

/-- Semantics of the debounce pipeline of `on_text_changed` together with
the single-shot `QTimer` (src/main.py lines 50-52 and 236-239), expressed
over a list of edit-event times (in milliseconds, ascending): each edit
stops any pending timer and restarts it, so the timer started at `t`
fires at `t + delay` exactly when no later edit happens before that
deadline, and each firing invokes `update_preview` once.  The result is
the list of render-invocation times. -/
def debounceRenders (delay : Nat) : List Nat → List Nat
  | [] => []
  | [t] => [t + delay]
  | t :: t1 :: rest =>
    if t1 < t + delay then debounceRenders delay (t1 :: rest)
    else (t + delay) :: debounceRenders delay (t1 :: rest)

/-- The truthiness test `self.api_key_set and self.gemini_api_key`
opening `get_api_key` (src/main.py line 363): a Python `None` and an
empty string are both falsy. -/
def keyTruthy (s : ViewerState) : Bool :=
  s.apiKeySet && (match s.geminiApiKey with | some k => !(k = "") | none => false)

/-- Result of one `get_api_key` call: the updated state, the returned
boolean, and whether the modal key prompt was shown. -/
structure ApiKeyOutcome where
  state : ViewerState
  result : Bool
  prompted : Bool
  deriving Repr

/-- Method `MarkdownViewer.get_api_key` (src/main.py lines 362-382).  `ok` and
`text` are the results of the `QInputDialog` prompt; `valid` is whether
the external validation call `genai.get_model(...)` succeeds on the
entered key.  If a truthy key is already cached, return `True` with no
prompt.  Otherwise prompt; on `ok` with non-empty text the key is cached
and validated: success returns `True`, failure clears both credential
fields and returns `False`.  A cancelled or empty prompt returns `False`
with the state unchanged. -/
def getApiKey (ok : Bool) (text : String) (valid : Bool) (s : ViewerState) : ApiKeyOutcome :=
  if keyTruthy s then ⟨s, true, false⟩
  else if ok && !(text = "") then
    let s1 := { s with geminiApiKey := some text, apiKeySet := true }
    if valid then ⟨s1, true, true⟩
    else ⟨{ s1 with apiKeySet := false, geminiApiKey := none }, false, true⟩
  else ⟨s, false, true⟩

/-- Observable events of `export_to_pdf` (src/main.py lines 304-320), in
order of occurrence. -/
inductive PdfEvent where
  /-- The call `self.preview.page().printToPdf(file_path)`: it starts the
  asynchronous print and returns immediately. -/
  | printToPdfStarted (path : String)
  /-- Call `handle_pdf_creation(True)`: status-bar message and success dialog. -/
  | successReported (path : String)
  /-- Call `handle_pdf_creation(False)`: failure message and error dialog. -/
  | failureReported
  /-- The asynchronous print operation finishing inside the web engine,
  with its actual outcome.  Being asynchronous, it happens only after
  `export_to_pdf` has returned. -/
  | printCompleted (ok : Bool)
  deriving Repr, DecidableEq

/-- Method `MarkdownViewer.export_to_pdf` (src/main.py lines 304-320) as the
ordered trace of its observable events, extended with the later
asynchronous completion carrying the actual outcome `ultimateOk`.
`printToPdf` is a void asynchronous Qt call that raises no exception, so
the `except` branch calling `handle_pdf_creation(False)` is dead and the
success branch always runs once a path was chosen. -/
def exportToPdfTrace (dialogPath : Option String) (ultimateOk : Bool) : List PdfEvent :=
  match dialogPath with
  | none => []
  | some p =>
    [PdfEvent.printToPdfStarted p, PdfEvent.successReported p, PdfEvent.printCompleted ultimateOk]

/-- Method `MarkdownViewer.__init__` (src/main.py lines 34-57): the instance
fields start as `None`/`False`, the dark-mode action starts unchecked,
`load_styles` runs once at startup with the two Pygments style sheets,
the debounce timer is created idle, and an initial `update_preview`
renders the empty editor. -/
def initState (md : String → List String → String) (pygLight pygDark : String) : ViewerState :=
  let s0 : ViewerState :=
    { editorText := ""
      previewHtml := ""
      currentFilePath := none
      apiKeySet := false
      geminiApiKey := none
      darkChecked := false
      pygmentsCss := ""
      baseCss := ""
      darkModeCss := ""
      pygmentsDarkCss := ""
      currentCss := ""
      editorFontPointSize := 14
      windowTitle := "Python Markdown Viewer"
      timerDeadline := none }
  updatePreview md (loadStyles pygLight pygDark s0)

/-- The invariant relating the derived `current_css` field to the theme
flag: after `load_styles` has run, `current_css` is always the light
bundle `base_css + pygments_css` or the dark bundle
`base_css + dark_mode_css + pygments_dark_css`, as selected by the
checked state of the dark-mode action. -/
def cssInv (s : ViewerState) : Prop :=
  s.currentCss =
    if s.darkChecked then s.baseCss ++ s.darkModeCss ++ s.pygmentsDarkCss
    else s.baseCss ++ s.pygmentsCss

instance (s : ViewerState) : Decidable (cssInv s) := by
  unfold cssInv; infer_instance

/-! Concrete instances used by witnesses and counterexamples. -/

/-- A concrete stand-in for the external `markdown2.markdown` routine:
it records the input text and how many extras were requested.  Like the
real converter, its output depends on the extras configuration (for
markdown2, the `code-friendly` extra changes how underscores in the text
are rendered, so different extras lists give different fragments). -/
def exampleMd (text : String) (extras : List String) : String :=
  "<p>" ++ text ++ "</p><!-- extras:" ++ toString extras.length ++ " -->"

/-- A converter stand-in whose output ignores the extras configuration. -/
def extrasBlindMd (text : String) (_extras : List String) : String :=
  "<p>" ++ text ++ "</p>"

/-- A concrete viewer: the state right after startup, with a small
document typed into the editor. -/
def exampleState : ViewerState :=
  { initState exampleMd ("PYGLIGHT") ("PYGDARK") with
    editorText := "# Title\nhello _world_\n" }

/-- A second concrete viewer agreeing with `exampleState` on the document
text, the theme flag and the style constants, but differing in every
other mutable field. -/
def exampleState2 : ViewerState :=
  { exampleState with
    previewHtml := "stale"
    currentFilePath := some ("/tmp/a.md")
    apiKeySet := true
    geminiApiKey := some ("k")
    editorFontPointSize := 22
    windowTitle := "Python Markdown Viewer - a.md"
    timerDeadline := some 1000 }

/-! Supporting lemmas. -/

/-- One `adjust_font_size` call keeps the editor font point size above
4 whenever it was above 4 before. -/
lemma adjustFontSize_gt_four (d : Int) (s : ViewerState)
    (h : s.editorFontPointSize > 4) :
    (adjustFontSize d s).editorFontPointSize > 4 := by
  unfold adjustFontSize
  by_cases hc : s.editorFontPointSize + Int.fdiv d 2 > 4
  · simp [hc]
  · simp [hc]; exact h

/-- The operations of the viewer establish or preserve the `cssInv`
invariant: startup establishes it, toggling the theme re-establishes it,
and the remaining operations leave the five fields it mentions
untouched. -/
lemma cssInv_ops (md : String → List String → String) (pygLight pygDark : String) :
    cssInv (initState md pygLight pygDark) ∧
    (∀ s, cssInv (toggleDarkMode md s)) ∧
    (∀ s, cssInv s → cssInv (updatePreview md s)) ∧
    (∀ now s, cssInv s → cssInv (onTextChanged now s)) ∧
    (∀ q s fs, cssInv s → cssInv (openFile q s fs)) ∧
    (∀ q w s fs, cssInv s → cssInv (saveFile q w s fs).1) ∧
    (∀ d s, cssInv s → cssInv (adjustFontSize d s)) ∧
    (∀ ok t v s, cssInv s → cssInv (getApiKey ok t v s).state) := by
  refine ⟨?_, ?_, ?_, ?_, ?_, ?_, ?_, ?_⟩
  · simp [initState, loadStyles, updatePreview, cssInv]
  · intro s
    cases h : s.darkChecked <;>
      simp [toggleDarkMode, updatePreview, cssInv, h]
  · intro s hs
    simpa [updatePreview, cssInv] using hs
  · intro now s hs
    simpa [onTextChanged, cssInv] using hs
  · intro q s fs hs
    cases q with
    | none => simpa [openFile] using hs
    | some p =>
      cases hfp : fs p with
      | none => simpa [openFile, hfp] using hs
      | some c =>
        simp only [openFile, hfp, cssInv] at hs ⊢
        exact hs
  · intro q w s fs hs
    cases hcf : s.currentFilePath with
    | some p =>
      cases w <;> simpa [saveFile, saveFileWithPath, hcf] using hs
    | none =>
      cases q with
      | none => simpa [saveFile, saveFileAs, hcf] using hs
      | some p =>
        cases w <;>
          simp only [saveFile, saveFileAs, saveFileWithPath, hcf, cssInv,
            Bool.false_eq_true, if_false, if_true] at hs ⊢ <;>
          exact hs
  · intro d s hs
    unfold adjustFontSize
    by_cases hc : s.editorFontPointSize + Int.fdiv d 2 > 4 <;>
      simp [hc] <;> simpa [cssInv] using hs
  · intro ok t v s hs
    unfold getApiKey
    by_cases h1 : keyTruthy s = true
    · simp [h1]; exact hs
    · by_cases h2 : (ok && !(decide (t = ""))) = true <;>
        cases v <;> simp [h1, h2] <;> simpa [cssInv] using hs

/-! Claim theorems. -/

/-- C10: `adjust_font_size` changes the editor (and AI pane) font point
size only when the candidate size `pointSize + delta // 2` exceeds 4
points, so from a point size greater than 4 every sequence of
`adjust_font_size` calls leaves the point size greater than 4. -/
theorem adjustFontSize_floor_invariant (s : ViewerState) (deltas : List Int)
    (h : s.editorFontPointSize > 4) :
    (∀ d : Int, (adjustFontSize d s).editorFontPointSize = s.editorFontPointSize ∨
      ((adjustFontSize d s).editorFontPointSize = s.editorFontPointSize + Int.fdiv d 2 ∧
        s.editorFontPointSize + Int.fdiv d 2 > 4)) ∧
    (deltas.foldl (fun st d => adjustFontSize d st) s).editorFontPointSize > 4 := by
  constructor
  · intro d
    unfold adjustFontSize
    by_cases hc : s.editorFontPointSize + Int.fdiv d 2 > 4
    · right; simp [hc]
    · left; simp [hc]
  · induction deltas generalizing s with
    | nil => exact h
    | cons d rest ih =>
      simpa using ih (adjustFontSize d s) (adjustFontSize_gt_four d s h)

/-- Witness for C10 at a concrete state and delta sequence. -/
theorem adjustFontSize_floor_invariant_witness :
    exampleState.editorFontPointSize > 4 ∧
    (([2, -2, -2, -2, -20] : List Int).foldl
        (fun st d => adjustFontSize d st) exampleState).editorFontPointSize > 4 :=
  ⟨by decide,
   (adjustFontSize_floor_invariant exampleState [2, -2, -2, -2, -20] (by decide)).2⟩

/-- C6: saving the editor text to a path (either through `save_file` on a
state whose `current_file_path` is set, or through `save_file_as` with a
freshly chosen path) and then reopening that path restores exactly the
saved text, from whatever state the reopen happens in. -/
theorem save_then_open_roundtrip (s s2 : ViewerState) (fs : Fs) (p : String) :
    (openFile (some p) s2 (saveFileAs (some p) true s fs).2).editorText = s.editorText ∧
    (openFile (some p) s2
        (saveFile none true { s with currentFilePath := some p } fs).2).editorText
      = s.editorText := by
  constructor
  · simp [saveFileAs, saveFileWithPath, openFile, writeTo]
  · simp [saveFile, saveFileWithPath, openFile, writeTo]

/-- C7: in `export_to_pdf`, once a path is chosen, `printToPdf` only
starts the asynchronous print, and `handle_pdf_creation(True)` runs
immediately afterwards: the success report sits strictly before the
asynchronous completion in the event trace, appears whatever the eventual
outcome is, and the failure report is never emitted. -/
theorem exportToPdf_reports_success_early (p : String) (ultimateOk : Bool) :
    (exportToPdfTrace (some p) ultimateOk).get? 1 = some (PdfEvent.successReported p) ∧
    (exportToPdfTrace (some p) ultimateOk).get? 2 = some (PdfEvent.printCompleted ultimateOk) ∧
    PdfEvent.failureReported ∉ exportToPdfTrace (some p) ultimateOk ∧
    (exportToPdfTrace (some p) false).take 2 = (exportToPdfTrace (some p) true).take 2 := by
  refine ⟨rfl, rfl, ?_, rfl⟩
  simp [exportToPdfTrace]

/-- C8: the two Pygments style sheets and the base CSS are fixed by
`load_styles` at startup; `on_text_changed`, `update_preview` and
`toggle_dark_mode` never touch them, and `toggle_dark_mode` only selects
`current_css` from the two bundles assembled out of the cached
fragments. -/
theorem styles_cached_once (md : String → List String → String)
    (pygLight pygDark : String) (now : Nat) (s : ViewerState) :
    ((initState md pygLight pygDark).pygmentsCss = pygLight ∧
      (initState md pygLight pygDark).pygmentsDarkCss = pygDark ∧
      (initState md pygLight pygDark).baseCss = baseCssSrc) ∧
    ((onTextChanged now s).pygmentsCss = s.pygmentsCss ∧
      (onTextChanged now s).pygmentsDarkCss = s.pygmentsDarkCss ∧
      (onTextChanged now s).baseCss = s.baseCss ∧
      (onTextChanged now s).currentCss = s.currentCss) ∧
    ((updatePreview md s).pygmentsCss = s.pygmentsCss ∧
      (updatePreview md s).pygmentsDarkCss = s.pygmentsDarkCss ∧
      (updatePreview md s).baseCss = s.baseCss ∧
      (updatePreview md s).currentCss = s.currentCss) ∧
    ((toggleDarkMode md s).pygmentsCss = s.pygmentsCss ∧
      (toggleDarkMode md s).pygmentsDarkCss = s.pygmentsDarkCss ∧
      (toggleDarkMode md s).baseCss = s.baseCss) ∧
    ((toggleDarkMode md s).currentCss = s.baseCss ++ s.darkModeCss ++ s.pygmentsDarkCss ∨
      (toggleDarkMode md s).currentCss = s.baseCss ++ s.pygmentsCss) := by
  cases h : s.darkChecked <;>
    simp [initState, loadStyles, updatePreview, onTextChanged, toggleDarkMode, h]

/-- The empty file system. -/
def fsEmpty : Fs := fun _ => none

/-- A concrete path used by witnesses. -/
def newPath : String := "/tmp/new.md"

/-- C9: `save_file_as` commits `current_file_path` and the window title
to the newly chosen path before the write is attempted, so when the
write then fails the new path (and title) stick and the file system is
untouched, whereas `open_file` leaves the state completely unchanged
when the read fails. -/
theorem saveFileAs_commits_path_before_write (s : ViewerState) (fs : Fs) (p : String)
    (hread : fs p = none) :
    (saveFileAs (some p) false s fs).1.currentFilePath = some p ∧
    (saveFileAs (some p) false s fs).1.windowTitle = titleFor p ∧
    (saveFileAs (some p) false s fs).2 = fs ∧
    openFile (some p) s fs = s := by
  refine ⟨?_, ?_, ?_, ?_⟩ <;> simp [saveFileAs, saveFileWithPath, openFile, hread]

/-- Witness for C9: a failing save-as to a fresh path on an empty file
system still records the new path, and a failing open changes nothing. -/
theorem saveFileAs_commits_path_before_write_witness :
    fsEmpty newPath = none ∧
    (saveFileAs (some newPath) false exampleState fsEmpty).1.currentFilePath = some newPath ∧
    openFile (some newPath) exampleState fsEmpty = exampleState :=
  ⟨rfl,
   (saveFileAs_commits_path_before_write exampleState fsEmpty newPath rfl).1,
   (saveFileAs_commits_path_before_write exampleState fsEmpty newPath rfl).2.2.2⟩

/-- A call of `get_api_key` on a state with a truthy cached credential
returns `True` at once, without prompting and without touching the
state. -/
lemma getApiKey_of_truthy (ok : Bool) (t : String) (v : Bool) (s : ViewerState)
    (h : keyTruthy s = true) :
    getApiKey ok t v s = ⟨s, true, false⟩ := by
  unfold getApiKey
  simp [h]

/-- A call of `get_api_key` on a state with no truthy cached credential
always shows the modal prompt. -/
lemma getApiKey_prompts_of_untruthy (ok : Bool) (t : String) (v : Bool) (s : ViewerState)
    (h : keyTruthy s = false) :
    (getApiKey ok t v s).prompted = true := by
  unfold getApiKey
  by_cases h2 : (ok && !(decide (t = ""))) = true <;> cases v <;> simp [h, h2]

/-- C5: starting with no truthy cached credential, `get_api_key` prompts;
entering a key that fails validation clears `api_key_set` and
`gemini_api_key` and the call returns `False`, so every subsequent call
prompts again; entering a key that validates caches it, returns `True`,
and every subsequent call returns `True` without prompting. -/
theorem getApiKey_state_machine (s : ViewerState) (text : String)
    (hkey : keyTruthy s = false) (htext : text ≠ "") :
    (getApiKey true text false s).prompted = true ∧
    (getApiKey true text false s).state.apiKeySet = false ∧
    (getApiKey true text false s).state.geminiApiKey = none ∧
    (getApiKey true text false s).result = false ∧
    (∀ ok2 t2 v2, (getApiKey ok2 t2 v2 (getApiKey true text false s).state).prompted = true) ∧
    (getApiKey true text true s).state.apiKeySet = true ∧
    (getApiKey true text true s).state.geminiApiKey = some text ∧
    (getApiKey true text true s).result = true ∧
    (∀ ok2 t2 v2, (getApiKey ok2 t2 v2 (getApiKey true text true s).state).result = true ∧
      (getApiKey ok2 t2 v2 (getApiKey true text true s).state).prompted = false) := by
  have hfail : getApiKey true text false s =
      ⟨{ s with apiKeySet := false, geminiApiKey := none }, false, true⟩ := by
    unfold getApiKey
    simp [hkey, htext]
  have hsucc : getApiKey true text true s =
      ⟨{ s with geminiApiKey := some text, apiKeySet := true }, true, true⟩ := by
    unfold getApiKey
    simp [hkey, htext]
  have hfailkey : keyTruthy { s with apiKeySet := false, geminiApiKey := none } = false := by
    simp [keyTruthy]
  have hsucckey : keyTruthy { s with geminiApiKey := some text, apiKeySet := true } = true := by
    simp [keyTruthy, htext]
  refine ⟨?_, ?_, ?_, ?_, ?_, ?_, ?_, ?_, ?_⟩
  · rw [hfail]
  · rw [hfail]
  · rw [hfail]
  · rw [hfail]
  · intro ok2 t2 v2
    rw [hfail]
    exact getApiKey_prompts_of_untruthy ok2 t2 v2 _ hfailkey
  · rw [hsucc]
  · rw [hsucc]
  · rw [hsucc]
  · intro ok2 t2 v2
    rw [hsucc]
    rw [getApiKey_of_truthy ok2 t2 v2 _ hsucckey]
    exact ⟨rfl, rfl⟩

/-- Witness for C5 with a concrete fresh state and a concrete key. -/
theorem getApiKey_state_machine_witness :
    keyTruthy exampleState = false ∧
    (getApiKey true ("KEY123") false exampleState).result = false ∧
    (getApiKey true ("KEY123") false exampleState).state.geminiApiKey = none ∧
    (getApiKey false ("") true (getApiKey true ("KEY123") false exampleState).state).prompted
      = true ∧
    (getApiKey false ("") true (getApiKey true ("KEY123") true exampleState).state).result
      = true ∧
    (getApiKey false ("") true (getApiKey true ("KEY123") true exampleState).state).prompted
      = false := by
  have h := getApiKey_state_machine exampleState ("KEY123") (by decide) (by decide)
  exact ⟨by decide, h.2.2.2.1, h.2.2.1, h.2.2.2.2.1 false ("") true,
    (h.2.2.2.2.2.2.2.2 false ("") true).1, (h.2.2.2.2.2.2.2.2 false ("") true).2⟩

/-- A burst: when every edit follows its predecessor within the quiet
window, each earlier edit cancels the pending timer, and only the timer
restarted by the last edit fires. -/
lemma debounceRenders_burst (delay t : Nat) (rest : List Nat)
    (hc : List.Chain' (fun a b => b < a + delay) (t :: rest)) :
    debounceRenders delay (t :: rest) = [rest.getLastD t + delay] := by
  induction rest generalizing t with
  | nil => rfl
  | cons t1 rest ih =>
    rw [List.chain'_cons] at hc
    simp only [debounceRenders, if_pos hc.1]
    rw [ih t1 hc.2, List.getLastD_cons]

/-- Spread edits: when every edit arrives after the previous timer has
already fired, every edit produces its own render. -/
lemma debounceRenders_spread (delay t : Nat) (rest : List Nat)
    (hc : List.Chain' (fun a b => a + delay < b) (t :: rest)) :
    (debounceRenders delay (t :: rest)).length = (t :: rest).length := by
  induction rest generalizing t with
  | nil => rfl
  | cons t1 rest ih =>
    rw [List.chain'_cons] at hc
    have hnot : ¬ t1 < t + delay := Nat.not_lt.mpr (Nat.le_of_lt hc.1)
    simp only [debounceRenders, if_neg hnot, List.length_cons]
    rw [ih t1 hc.2]
    simp

/-- C4: with the 300 ms single-shot debounce timer of `on_text_changed`,
a non-empty burst of edits whose consecutive gaps are each below the
quiet window triggers exactly one `update_preview`, 300 ms after the
last edit; edits whose consecutive gaps each exceed the quiet window
trigger one `update_preview` per edit. -/
theorem debounce_collapses_bursts (t : Nat) (rest : List Nat) :
    (List.Chain' (fun a b => b < a + 300) (t :: rest) →
      debounceRenders 300 (t :: rest) = [rest.getLastD t + 300]) ∧
    (List.Chain' (fun a b => a + 300 < b) (t :: rest) →
      (debounceRenders 300 (t :: rest)).length = (t :: rest).length) :=
  ⟨fun hc => debounceRenders_burst 300 t rest hc,
   fun hc => debounceRenders_spread 300 t rest hc⟩

/-- Witness for C4: four edits 100-150 ms apart render once, at 300 ms
after the last edit; three edits 400 ms apart render three times. -/
theorem debounce_collapses_bursts_witness :
    debounceRenders 300 [0, 100, 250, 400] = [([100, 250, 400] : List Nat).getLastD 0 + 300] ∧
    (debounceRenders 300 [0, 400, 800]).length = ([0, 400, 800] : List Nat).length :=
  ⟨(debounce_collapses_bursts 0 [100, 250, 400]).1 (by norm_num [List.chain'_cons]),
   (debounce_collapses_bursts 0 [400, 800]).2 (by norm_num [List.chain'_cons])⟩

/-- C1: the full HTML built by `update_preview` is a pure function of
the document text and the theme flag: any two states of one process
(same style constants, `current_css` in its invariant relation to the
theme flag) that agree on the editor text and the dark-mode check
produce byte-identical full HTML, whatever their other mutable fields
(file path, credential, timer, fonts, title) hold. -/
theorem updatePreviewHtml_pure (md : String → List String → String)
    (s1 s2 : ViewerState) (hinv1 : cssInv s1) (hinv2 : cssInv s2)
    (hbase : s1.baseCss = s2.baseCss) (hdarkcss : s1.darkModeCss = s2.darkModeCss)
    (hpyg : s1.pygmentsCss = s2.pygmentsCss) (hpygd : s1.pygmentsDarkCss = s2.pygmentsDarkCss)
    (htext : s1.editorText = s2.editorText) (hdark : s1.darkChecked = s2.darkChecked) :
    updatePreviewHtml md s1 = updatePreviewHtml md s2 := by
  unfold cssInv at hinv1 hinv2
  unfold updatePreviewHtml previewContent htmlTemplateFormat
  rw [hinv1, hinv2, hbase, hdarkcss, hpyg, hpygd, htext, hdark]

/-- Witness for C1: two states sharing text and theme but differing in
file path, credential, preview document, font size, title and timer
render the same full HTML. -/
theorem updatePreviewHtml_pure_witness :
    cssInv exampleState ∧ cssInv exampleState2 ∧
    exampleState.currentFilePath ≠ exampleState2.currentFilePath ∧
    exampleState.apiKeySet ≠ exampleState2.apiKeySet ∧
    updatePreviewHtml exampleMd exampleState = updatePreviewHtml exampleMd exampleState2 :=
  ⟨by unfold cssInv; rfl, by unfold cssInv; rfl, by decide, by decide,
   updatePreviewHtml_pure exampleMd exampleState exampleState2
     (by unfold cssInv; rfl) (by unfold cssInv; rfl) rfl rfl rfl rfl rfl rfl⟩

/-- C2: re-rendering the same document after a theme toggle yields full
HTML that differs from the previous render only in the CSS injected into
the style slot of the template: the Markdown content fragment is unchanged,
both documents are the fixed template wrapped around (their own CSS,
that same fragment), and the toggled CSS is exactly the bundle of the other
theme. -/
theorem toggle_dark_mode_changes_only_css (md : String → List String → String)
    (s : ViewerState) :
    previewContent md (toggleDarkMode md s) = previewContent md s ∧
    updatePreviewHtml md (toggleDarkMode md s) =
      htmlTemplateFormat (toggleDarkMode md s).currentCss (previewContent md s) ∧
    updatePreviewHtml md s = htmlTemplateFormat s.currentCss (previewContent md s) ∧
    (toggleDarkMode md s).currentCss =
      (if s.darkChecked then s.baseCss ++ s.pygmentsCss
       else s.baseCss ++ s.darkModeCss ++ s.pygmentsDarkCss) := by
  cases h : s.darkChecked <;>
    simp [toggleDarkMode, updatePreview, updatePreviewHtml, previewContent,
      htmlTemplateFormat, h]

set_option maxRecDepth 20000 in
/-- C3 as stated fails: `export_to_html` invokes the converter with
extras `["fenced-code-blocks", "tables"]` while `update_preview` uses
the larger list with `highlightjs-classes` and `code-friendly` appended,
so a converter whose output depends on the requested extras (as
the output of markdown2 does, e.g. `code-friendly` changes how underscores are
rendered) produces an exported file that is not byte-identical to the
preview HTML for the same text and CSS bundle. -/
theorem export_html_differs_from_preview :
    exportHtmlString exampleMd exampleState ≠ updatePreviewHtml exampleMd exampleState := by
  decide

/-- C3 amended: the exported file and the preview use the same template
and the same `current_css`; whenever the converter returns the same
fragment for the export extras as for the preview extras — in particular
for documents exercising none of the features the extra extras affect —
the exported file is byte-identical to the preview HTML. -/
theorem export_html_matches_preview_of_converter_agrees
    (md : String → List String → String) (s : ViewerState)
    (h : md s.editorText exportExtras = md s.editorText previewExtras) :
    exportHtmlString md s = updatePreviewHtml md s := by
  unfold exportHtmlString updatePreviewHtml previewContent
  rw [h]

/-- Witness for the amended C3 with an extras-insensitive converter. -/
theorem export_html_matches_preview_witness :
    extrasBlindMd exampleState.editorText exportExtras =
      extrasBlindMd exampleState.editorText previewExtras ∧
    exportHtmlString extrasBlindMd exampleState = updatePreviewHtml extrasBlindMd exampleState :=
  ⟨rfl, export_html_matches_preview_of_converter_agrees extrasBlindMd exampleState rfl⟩

end MDViewer
